import Mathlib

/-!
# Verification of the whisper-script batch transcription pipeline

Shallow embedding of the core of the `humlab-speech/whisper-script`
repository: file discovery, the conversion cache, the configuration /
parameter-translation layer, the transcription matrix orchestrator and
the deterministic output-path / provenance-log naming scheme.

Python strings are modelled as Lean `String`s, filesystem paths as plain
strings joined with `/` (POSIX `os.path.join` semantics), dictionaries
as ordered association lists, and the external collaborators (ffmpeg,
the remote transcription service, the wall clock) as explicit
parameters.  All definitions are translated from the repository sources;
the file and line references are given on each definition.
-/

namespace WhisperScript

/-! ## Path and string primitives (POSIX semantics used by the sources) -/

/-- `str.startswith`, computed on the character lists. -/
def strStartsWith (s p : String) : Bool :=
  decide (s.data.take p.data.length = p.data)

/-- `str.endswith`, computed on the character lists. -/
def strEndsWith (s p : String) : Bool :=
  decide (p.data.length ≤ s.data.length ∧
    s.data.drop (s.data.length - p.data.length) = p.data)

/-- `str.lower` on one character (ASCII, which is all the sources use). -/
def lowerChar (c : Char) : Char :=
  if 'A' ≤ c ∧ c ≤ 'Z' then Char.ofNat (c.toNat + 32) else c

/-- `str.lower`, computed on the character list. -/
def strToLower (s : String) : String := String.mk (s.data.map lowerChar)

/-- Two-argument `os.path.join` for POSIX paths: an absolute second
component replaces the first, otherwise the parts are glued with a
single `/` separator. -/
def osJoin2 (a b : String) : String :=
  if strStartsWith b "/" then b
  else if a = "" ∨ strEndsWith a "/" then a ++ b
  else a ++ "/" ++ b

/-- `os.path.join(*parts)` on a non-empty list of parts. -/
def osJoinList : List String → String
  | [] => ""
  | p :: ps => ps.foldl osJoin2 p

/-- Split a path at its last `/`: returns the directory prefix
(including the trailing slash) and the final name component. -/
def splitDirName (p : String) : String × String :=
  let cs := p.data
  if '/' ∈ cs then
    let k := (cs.reverse.takeWhile (fun c => c ≠ '/')).length
    (String.mk (cs.take (cs.length - k)), String.mk (cs.drop (cs.length - k)))
  else ("", p)

/-- `pathlib` stem/suffix split of a bare file name: the suffix starts at
the last dot provided that dot is neither the first nor the last
character of the name (so `".bashrc"` and `"a."` have no suffix). -/
def nameStemSuffix (name : List Char) : List Char × List Char :=
  if '.' ∈ name then
    let k := (name.reverse.takeWhile (fun c => c ≠ '.')).length
    let i := name.length - 1 - k
    if 1 ≤ i ∧ 1 ≤ k then (name.take i, name.drop i) else (name, [])
  else (name, [])

/-- `pathlib.PurePath.suffix` of a path. -/
def suffixOf (p : String) : String :=
  String.mk (nameStemSuffix (splitDirName p).2.data).2

/-- `pathlib.PurePath.stem` of a path. -/
def stemOf (p : String) : String :=
  String.mk (nameStemSuffix (splitDirName p).2.data).1

/-- `pathlib.PurePath.with_suffix` of a path: replace the suffix of the
final name component. -/
def withSuffix (p : String) (newSuffix : String) : String :=
  let dn := splitDirName p
  dn.1 ++ String.mk (nameStemSuffix dn.2.data).1 ++ newSuffix

/-! ## Path Sanitizer

`Configuration._sanitize_foldername`
(`WhisperTranscriber/configuration.py`, lines 44-59).

The source substitutes the regex pattern `r"\\s+"` by `"_"`.  As a
regular expression that raw-string pattern is an escaped backslash
followed by `s+`: it matches one literal backslash followed by one or
more letters `s` — not whitespace (the adjacent source comment says
"Replace whitespace with underscores", which the pattern does not do).
The substitution is embedded exactly as the pattern behaves. -/

theorem length_dropWhile_le {α : Type} (p : α → Bool) (l : List α) :
    (l.dropWhile p).length ≤ l.length := by
  induction l with
  | nil => simp [List.dropWhile]
  | cons a t ih =>
    by_cases h : p a
    · simpa [List.dropWhile, h] using Nat.le_succ_of_le ih
    · simp [List.dropWhile, h]

/-- `re.sub(r"\\s+", "_", s)`: replace every occurrence of a literal
backslash followed by a maximal run of `s` characters by a single
underscore (leftmost, non-overlapping, greedy).  The recursion is
structural on a fuel that starts at the list length; the fuel never runs
out because `dropWhile` does not lengthen a list. -/
def subBackslashSFuel : Nat → List Char → List Char
  | 0, cs => cs
  | _ + 1, [] => []
  | fuel + 1, c :: rest =>
    if c = '\\' ∧ rest.head? = some 's' then
      '_' :: subBackslashSFuel fuel (rest.dropWhile (fun d => d = 's'))
    else
      c :: subBackslashSFuel fuel rest

def subBackslashS (cs : List Char) : List Char := subBackslashSFuel cs.length cs

/-- Characters kept by the `[^a-zA-Z0-9_-]` removal. -/
def keepChar (c : Char) : Bool :=
  ('a' ≤ c ∧ c ≤ 'z') ∨ ('A' ≤ c ∧ c ≤ 'Z') ∨ ('0' ≤ c ∧ c ≤ '9') ∨ c = '_' ∨ c = '-'

/-- `Configuration._sanitize_foldername` (configuration.py, 44-59).
The leading underscore of the Python name is dropped. -/
def sanitize_foldername (name : String) : String :=
  if name = "" then "unnamed_configuration"
  else
    let t1 := subBackslashS name.data
    let t2 := t1.filter keepChar
    let t3 := t2.take 200
    if t3 = [] then "sanitized_empty_name" else String.mk t3

/-- Python truthiness wrapper: `_sanitize_foldername` applied to a value
that may be `None` (`None` is falsy, like the empty string). -/
def sanitizeOpt : Option String → String
  | none => "unnamed_configuration"
  | some s => sanitize_foldername s

/-! ## Dates

`datetime.datetime.now().strftime("%Y-%m-%d")` (configuration.py, 164). -/

structure Date where
  year : Nat
  month : Nat
  day : Nat
  deriving DecidableEq, Repr

/-- Zero-pad to two digits (`%m`, `%d`). -/
def pad2 (n : Nat) : String := if n < 10 then "0" ++ toString n else toString n

/-- Zero-pad to four digits (`%Y`). -/
def pad4 (n : Nat) : String :=
  if n < 10 then "000" ++ toString n
  else if n < 100 then "00" ++ toString n
  else if n < 1000 then "0" ++ toString n
  else toString n

/-- `strftime("%Y-%m-%d")`. -/
def formatDate (d : Date) : String := pad4 d.year ++ "-" ++ pad2 d.month ++ "-" ++ pad2 d.day

/-! ## Run configurations

A `RunConfiguration` is a JSON object: an ordered mapping from setting
names to values.  Values are modelled as strings (their content is
opaque to all the control flow that is verified here). -/

/-- One run-configuration dictionary, in document order. -/
abbrev ConfigDict := List (String × String)

/-- `dict.get`: value of the first entry with the given key. -/
def dictGet (d : ConfigDict) (k : String) : Option String :=
  (d.find? (fun kv => kv.1 == k)).map (fun kv => kv.2)

/-- `dict.pop(k, None)`: the removed value and the remaining dictionary. -/
def dictPop (d : ConfigDict) (k : String) : Option String × ConfigDict :=
  (dictGet d k, d.filter (fun kv => kv.1 != k))

/-- `dict[k] = v`: update in place, or append a new entry. -/
def dictSet (d : ConfigDict) (k v : String) : ConfigDict :=
  if d.any (fun kv => kv.1 == k) then
    d.map (fun kv => if kv.1 == k then (k, v) else kv)
  else d ++ [(k, v)]

/-! ## Parameter Translation Layer

`WhisperSettings` (`WhisperTranscriber/whispersettings.py`): the fixed
registry of recognized human-readable setting names. -/

/-- The keys of `WhisperSettings.settings` (whispersettings.py, 16-74),
in declaration order. -/
def settingKeys : List String :=
  ["upload_file", "input_folder", "include_subdirectory", "save_same_dir",
   "file_format", "add_timestamp", "model", "language", "translate_to_english",
   "beam_size", "log_prob_threshold", "no_speech_threshold", "compute_type",
   "best_of", "patience", "condition_on_prev_text", "prompt_reset_on_temp",
   "initial_prompt", "temperature", "compression_ratio_threshold",
   "length_penalty", "repetition_penalty", "no_repeat_ngram_size", "prefix",
   "suppress_blank", "suppress_tokens", "max_initial_timestamp",
   "word_timestamps", "prepend_punctuations", "append_punctuations",
   "max_new_tokens", "chunk_length_s", "hallucination_silence_threshold_sec",
   "hotwords", "language_detection_threshold", "language_detection_segments",
   "batch_size", "offload_whisper_model", "enable_silero_vad_filter",
   "vad_speech_threshold", "vad_min_speech_duration_ms",
   "vad_max_speech_duration_s", "vad_min_silence_duration_ms",
   "vad_speech_padding_ms", "enable_diarization", "whisper_device",
   "huggingface_token", "offload_diarization_model",
   "enable_bg_music_remover_filter", "bg_music_remover_model",
   "bg_remover_device", "segment_size", "save_separated_files_to_output",
   "offload_sub_model_after_removing_bg_music", "api_name"]

/-- The values of the `Transcriber.WhisperModel` enumeration
(transcriber.py, 29-45). -/
def modelValues : List String :=
  ["tiny.en", "tiny", "base.en", "base", "small.en", "small", "medium.en",
   "medium", "large-v1", "large-v2", "large-v3", "large",
   "whisper-large-v3-turbo", "kb-whisper-large-ct2"]

/-- The named parameters of `Transcriber.transcribe` (transcriber.py,
127-141).  A keyword argument with one of these names binds to the
parameter instead of landing in `**kwargs`. -/
def namedParams : List String :=
  ["file_name", "model", "vad", "language", "output_path", "tag",
   "override_output_folder", "settings", "original_filename",
   "disable_args_file"]

/-- The argument validation of `Transcriber.transcribe` (transcriber.py,
146-178): the file-existence check, the model-name parse, and the
`**kwargs` loop that rejects the first key absent from the
`WhisperSettings` registry.  The external `client.predict` call that
follows is not part of validation. -/
def transcriberValidate (fileName : String) (fileExists : Bool)
    (modelArg : Option String) (kwargs : ConfigDict) : Except String Unit :=
  if fileExists = false then .error ("File not found: " ++ fileName)
  else
    match modelArg with
    | none => .error "Model must be of type Whisper model or str"
    | some m =>
      if modelValues.contains (strToLower m) then
        match kwargs.find? (fun kv => !settingKeys.contains kv.1) with
        | some kv => .error ("Invalid setting: " ++ kv.1)
        | none => .ok ()
      else .error ("Invalid model name: " ++ m)

/-! ## `Configuration.transcribe`

(`WhisperTranscriber/configuration.py`, lines 145-223.)  The external
collaborators are explicit parameters: `now` is the wall clock at the
moment the call starts (`datetime.datetime.now()` is read inside the
call, line 164), `fileExists` is the filesystem answer for the audio
file, and `svcOk` is the outcome of the remote `client.predict` call. -/

/-- The keys popped from the active configuration copy before the
transcriber call: `description`, `language`, `model`, `subfolder`
(configuration.py, 171-176). -/
def configAfterPops (cfg : ConfigDict) : ConfigDict :=
  (dictPop (dictPop (dictPop (dictPop cfg "description").2 "language").2
      "model").2 "subfolder").2

/-- The `model` value forwarded to the transcriber (popped at
configuration.py, 173). -/
def configModel (cfg : ConfigDict) : Option String :=
  (dictPop (dictPop cfg "description").2 "language").2 |> (dictGet · "model")

/-- The keyword arguments reaching `Transcriber.transcribe`'s `**kwargs`:
the popped copy of the configuration, minus the keys that bind to the
transcriber's named parameters.  (`original_filename` and
`disable_args_file` are added by `Configuration.transcribe` at lines
210-214 but bind to named parameters, so they never reach `**kwargs`.) -/
def configKwargs (cfg : ConfigDict) : ConfigDict :=
  (configAfterPops cfg).filter (fun kv => !namedParams.contains kv.1)

/-- The folder-name source: `description if description else model_param`
(configuration.py, 181); the empty string and `None` are falsy. -/
def configFolderSource (cfg : ConfigDict) : Option String :=
  match (dictPop cfg "description").1 with
  | some d => if d = "" then configModel cfg else some d
  | none => configModel cfg

/-- The sanitized per-configuration folder name (configuration.py, 182). -/
def configFolderName (cfg : ConfigDict) : String :=
  sanitizeOpt (configFolderSource cfg)

/-- The components of the resolved output directory (configuration.py,
185-187): `[output_base, date, sanitized name]` plus the relative
subdirectory when it is truthy and not `"."`. -/
def resolveOutputParts (cfg : ConfigDict) (outputBase relSubdir : String)
    (now : Date) : List String :=
  [outputBase, formatDate now, configFolderName cfg] ++
    (if relSubdir ≠ "" ∧ relSubdir ≠ "." then [relSubdir] else [])

/-- `final_save_directory` (configuration.py, 188). -/
def resolveOutputDir (cfg : ConfigDict) (outputBase relSubdir : String)
    (now : Date) : String :=
  osJoinList (resolveOutputParts cfg outputBase relSubdir now)

/-- The provenance-log path (`_write_config_log`, configuration.py,
86-89): `{stem_of_original_file}__{sanitized_name}.log.json` in the
final save directory. -/
def resolveLogPath (finalDir origRel sanitizedName : String) : String :=
  osJoin2 finalDir (stemOf origRel ++ "__" ++ sanitizedName ++ ".log.json")

/-- Validation outcome of one task as performed inside
`Configuration.transcribe` → `Transcriber.transcribe`. -/
def configTaskValid (cfg : ConfigDict) (fileName : String)
    (fileExists : Bool) : Except String Unit :=
  transcriberValidate fileName fileExists (configModel cfg) (configKwargs cfg)

/-- Result of one task: validation followed by the remote service call
(`client.predict`, transcriber.py, 181), whose failure surfaces as an
exception. -/
def configTaskResult (cfg : ConfigDict) (fileName : String)
    (fileExists svcOk : Bool) : Except String Unit :=
  match configTaskValid cfg fileName fileExists with
  | .error e => .error e
  | .ok _ => if svcOk then .ok () else .error "TranscriptionServiceFailure"

/-- Observable side effects of one `Configuration.transcribe` call. -/
inductive TEvent where
  | logWrite (path : String)
  | serviceCall
  deriving DecidableEq, Repr

def isLogWrite : TEvent → Bool
  | .logWrite _ => true
  | .serviceCall => false

structure TranscribeResult where
  finalDir : String
  logPath : String
  events : List TEvent
  result : Except String Unit

/-- `Configuration.transcribe` (configuration.py, 145-223).  The config
log is written (when not disabled, lines 190-202) before the transcriber
service is constructed and invoked (lines 206-223); the service call
happens only if validation passes, and its events record that order. -/
def transcribeConfig (cfg : ConfigDict) (fileName outputBase relSubdir origRel : String)
    (disableLogs : Bool) (now : Date) (fileExists svcOk : Bool) : TranscribeResult :=
  let finalDir := resolveOutputDir cfg outputBase relSubdir now
  let logPath := resolveLogPath finalDir origRel (configFolderName cfg)
  let valid := configTaskValid cfg fileName fileExists
  { finalDir := finalDir
    logPath := logPath
    events := (if disableLogs then [] else [TEvent.logWrite logPath]) ++
      (match valid with
       | .ok _ => [TEvent.serviceCall]
       | .error _ => [])
    result := configTaskResult cfg fileName fileExists svcOk }

/-! ## Conversion cache

The per-file conversion/copy step of `run_whisper.main`
(`run_whisper.py`, lines 287-329), and the ffmpeg wrapper
`convert_audio_to_wav_file` (lines 61-112).  The filesystem is the set
of existing target files, modelled as a duplicate-free list; ffmpeg and
`shutil.copy2` outcomes are external parameters. -/

/-- Add a path to the filesystem (a set). -/
def insertFs (p : String) (fs : List String) : List String :=
  if p ∈ fs then fs else p :: fs

/-- The external I/O actions a conversion step can perform. -/
inductive ConvAction where
  | ffmpegRun (src tgt : String)
  | copyFile (src tgt : String)
  deriving DecidableEq, Repr

/-- The mutable state of the conversion phase: the filesystem, the
summary counters (run_whisper.py, 170-186) and the accumulated lists
(run_whisper.py, 282-291). -/
structure ConvState where
  fs : List String
  filesConverted : Nat
  filesCopied : Nat
  skippedExists : Nat
  convFailed : Nat
  wavFiles : List String
  provMap : List (String × String)
  deriving DecidableEq, Repr

/-- `target_wav_path = (converted_wavs_root / relative_to_raw)
.with_suffix(".wav")` (run_whisper.py, 289). -/
def targetWavPath (convRoot rel : String) : String :=
  withSuffix (osJoin2 convRoot rel) ".wav"

/-- One iteration of the conversion loop of `run_whisper.main`
(run_whisper.py, 287-329) on the source file with relative path `rel`.
`ffmpegOk src` is the success of `convert_audio_to_wav_file` (which
removes any partial target on failure, lines 92-112), `copyOk src` the
success of `shutil.copy2`.  Returns the new state and the external
actions performed. -/
def convStep (force dryRun : Bool) (ffmpegOk copyOk : String → Bool)
    (convRoot : String) (st : ConvState) (rel : String) :
    ConvState × List ConvAction :=
  let tgt := targetWavPath convRoot rel
  let st := { st with provMap := dictSet st.provMap tgt rel }
  if strToLower (suffixOf rel) = ".wav" then
    -- source is already a WAV (run_whisper.py, 293-312)
    if tgt ∈ st.fs ∧ force = false then
      ({ st with skippedExists := st.skippedExists + 1,
                 wavFiles := st.wavFiles ++ [tgt] }, [])
    else if dryRun = false then
      if copyOk rel then
        ({ st with fs := insertFs tgt st.fs,
                   filesCopied := st.filesCopied + 1,
                   wavFiles := st.wavFiles ++ [tgt] }, [.copyFile rel tgt])
      else
        ({ st with convFailed := st.convFailed + 1 }, [.copyFile rel tgt])
    else
      ({ st with filesCopied := st.filesCopied + 1,
                 wavFiles := st.wavFiles ++ [tgt] }, [])
  else
    -- source needs conversion (run_whisper.py, 313-329)
    if tgt ∈ st.fs ∧ force = false then
      ({ st with skippedExists := st.skippedExists + 1,
                 wavFiles := st.wavFiles ++ [tgt] }, [])
    else if dryRun = false then
      if ffmpegOk rel then
        ({ st with fs := insertFs tgt st.fs,
                   filesConverted := st.filesConverted + 1,
                   wavFiles := st.wavFiles ++ [tgt] }, [.ffmpegRun rel tgt])
      else
        ({ st with convFailed := st.convFailed + 1 }, [.ffmpegRun rel tgt])
    else
      ({ st with filesConverted := st.filesConverted + 1,
                 wavFiles := st.wavFiles ++ [tgt] }, [])

/-- Iterate `convStep` `n` times on the same source file, accumulating
the external actions. -/
def convIter (force dryRun : Bool) (ffmpegOk copyOk : String → Bool)
    (convRoot : String) (st : ConvState) (rel : String) :
    Nat → ConvState × List ConvAction
  | 0 => (st, [])
  | n + 1 =>
    let fst1 := convStep force dryRun ffmpegOk copyOk convRoot st rel
    let rest := convIter force dryRun ffmpegOk copyOk convRoot fst1.1 rel n
    (rest.1, fst1.2 ++ rest.2)

/-- `convert_audio_to_wav_file` (run_whisper.py, 61-112), at the level
of the filesystem: `rc`/`stderr` are the ffmpeg exit code and error
stream, `wrotePartial` says whether ffmpeg left a (partial) target file
behind.  Returns `(success, diagnostics, new filesystem)`; on a non-zero
exit code the partially-written target is unlinked (lines 92-100). -/
def convert_audio_to_wav_file (sourceExists : Bool) (rc : Nat)
    (stderr : String) (wrotePartial : Bool) (fs : List String)
    (tgt : String) : Bool × Option String × List String :=
  if sourceExists = false then (false, none, fs)
  else
    let fs1 := if wrotePartial then insertFs tgt fs else fs
    if rc ≠ 0 then
      (false, some stderr, fs1.filter (fun p => p != tgt))
    else
      (true, none, insertFs tgt fs)

/-! ## File discovery

`find_files_to_convert` (`scripts/convert_to_wav.py`, lines 46-130) and
`find_convertible_files` (`run_whisper.py`, lines 39-58).  An input path
is a single file, a directory (its scan root plus the contained files as
relative paths, in walk order), or missing. -/

inductive InputPath where
  | file (path : String)
  | dir (root : String) (entries : List String)
  | missing
  deriving Repr

/-- `suffix_to_check in extensions_to_match` (convert_to_wav.py, 73-75,
116-118). -/
def extMatch (caseSensitive : Bool) (exts : List String) (p : String) : Bool :=
  let sfx := suffixOf p
  exts.contains (if caseSensitive then sfx else strToLower sfx)

/-- Output file for a directory entry (convert_to_wav.py, 119-124):
`output_dir / relative_parent / (stem + ".wav")`; `pathlib` drops a
`"."` parent. -/
def dirEntryOutput (outDir rel : String) : String :=
  let parent := (splitDirName rel).1
  let sub := if parent = "" then outDir
             else osJoin2 outDir (String.mk (parent.data.dropLast))
  osJoin2 sub (stemOf rel ++ ".wav")

/-- `find_files_to_convert` (convert_to_wav.py, 46-130).  For a single
file: a one-element result when the extension matches, else empty.  For
a directory: every entry not under the output directory whose extension
matches, paired with its mirrored output path (`os.walk` with the
output-directory skip of lines 94-111).  Otherwise empty. -/
def find_files_to_convert (input : InputPath) (exts : List String)
    (outDir : String) (caseSensitive : Bool) : List (String × String) :=
  match input with
  | .file p =>
    if extMatch caseSensitive exts p then
      [(p, osJoin2 outDir (stemOf p ++ ".wav"))]
    else []
  | .dir root entries =>
    (entries.filter
        (fun rel => !strStartsWith (osJoin2 root rel) (outDir ++ "/"))).filterMap
      (fun rel =>
        if extMatch caseSensitive exts rel then
          some (osJoin2 root rel, dirEntryOutput outDir rel)
        else none)
  | .missing => []

/-- `find_convertible_files` (run_whisper.py, 39-58): only a directory
is scanned; any other input yields the empty list (line 44-46).
Extensions are lowercased and matched against the lowercased suffix. -/
def find_convertible_files (input : InputPath) (exts : List String) :
    List String :=
  match input with
  | .dir root entries =>
    entries.filterMap (fun rel =>
      if (exts.map strToLower).contains (strToLower (suffixOf rel)) then
        some (osJoin2 root rel)
      else none)
  | _ => []

/-! ## Orchestrator: the transcription matrix

The nested transcription loop of `run_whisper.main` (run_whisper.py,
lines 343-436): for each configuration (document order), for each
converted WAV file (discovery order), one task is attempted; on success
`transcriptions_submitted` is incremented, on any exception
`transcription_errors` is incremented and the loop continues (lines
399-421).  In dry-run mode the task is only counted as submitted (lines
422-436).  `outcome` abstracts the whole per-task call
(`Configuration.transcribe` plus the remote service). -/

def exceptErr : Except String Unit → Bool
  | .ok _ => false
  | .error _ => true

/-- The inner loop over WAV files for one configuration, threading the
`(submitted, errors, attempted-task trace)` accumulator. -/
def runInner (dryRun : Bool) (outcome : ConfigDict → String → Except String Unit)
    (cfg : ConfigDict) :
    List String → Nat × Nat × List (ConfigDict × String) →
    Nat × Nat × List (ConfigDict × String)
  | [], acc => acc
  | w :: ws, (sub, err, tr) =>
    if dryRun then
      runInner dryRun outcome cfg ws (sub + 1, err, tr ++ [(cfg, w)])
    else
      match outcome cfg w with
      | .ok _ => runInner dryRun outcome cfg ws (sub + 1, err, tr ++ [(cfg, w)])
      | .error _ => runInner dryRun outcome cfg ws (sub, err + 1, tr ++ [(cfg, w)])

/-- The outer loop over configurations. -/
def runConfigs (dryRun : Bool) (outcome : ConfigDict → String → Except String Unit)
    (wavs : List String) :
    List ConfigDict → Nat × Nat × List (ConfigDict × String) →
    Nat × Nat × List (ConfigDict × String)
  | [], acc => acc
  | c :: cs, acc => runConfigs dryRun outcome wavs cs (runInner dryRun outcome c wavs acc)

/-- The whole transcription loop, started from zeroed counters. -/
def runMatrix (dryRun : Bool) (outcome : ConfigDict → String → Except String Unit)
    (configs : List ConfigDict) (wavs : List String) :
    Nat × Nat × List (ConfigDict × String) :=
  runConfigs dryRun outcome wavs configs (0, 0, [])

/-- The expected task order: configurations in document order, files in
discovery order. -/
def taskList (configs : List ConfigDict) (wavs : List String) :
    List (ConfigDict × String) :=
  configs.flatMap (fun c => wavs.map (fun w => (c, w)))

/-- The per-task outcome used by the orchestrator, obtained from the
`Configuration.transcribe` model: the task for `(cfg, w)` validates the
configuration and then performs the remote call. -/
def orchestratorOutcome (fileExists : String → Bool)
    (svcOk : ConfigDict → String → Bool) (cfg : ConfigDict) (w : String) :
    Except String Unit :=
  configTaskResult cfg w (fileExists w) (svcOk cfg w)

/-! ## Per-task clock

`Configuration.transcribe` reads `datetime.datetime.now()` each time it
is called (configuration.py, 164).  `clock i` is the wall-clock date
when the `i`-th task of the batch starts. -/

/-- The resolved output-directory components of every task of a batch,
in execution order; task `i` runs at date `clock i`.  Each WAV file
carries its relative subdirectory (run_whisper.py, 356-357). -/
def batchDirParts (configs : List ConfigDict) (wavs : List (String × String))
    (outputBase : String) (clock : Nat → Date) : List (List String) :=
  ((configs.flatMap (fun c => wavs.map (fun w => (c, w)))).enum).map
    (fun p => resolveOutputParts p.2.1 outputBase p.2.2.2 (clock p.1))

/-- The resolved output directories of every task of a batch. -/
def batchDirs (configs : List ConfigDict) (wavs : List (String × String))
    (outputBase : String) (clock : Nat → Date) : List String :=
  (batchDirParts configs wavs outputBase clock).map osJoinList

/-! ## Concrete instances used in the scenario theorems -/

/-- The run configuration of the spec's naming scenario. -/
def demoCfg : ConfigDict :=
  [("description", "swedish_large_v2"), ("model", "large-v2"),
   ("language", "swedish")]

/-- A run configuration carrying an unrecognized setting key. -/
def bogusCfg : ConfigDict :=
  [("description", "with_bogus"), ("language", "swedish"),
   ("model", "large-v2"), ("bogus_param", "1")]

/-- The zeroed conversion-phase state at the start of a run. -/
def convSt0 : ConvState := ⟨[], 0, 0, 0, 0, [], []⟩

/-- A wall clock under which the second task of a batch starts after a
midnight boundary. -/
def midnightClock : Nat → Date :=
  fun i => if i = 0 then ⟨2025, 6, 10⟩ else ⟨2025, 6, 11⟩

/-- A wall clock that never crosses midnight during the batch. -/
def constClock : Nat → Date := fun _ => ⟨2025, 6, 10⟩

/-- Two converted files at the scan root. -/
def demoWavs : List (String × String) :=
  [("conv/a.wav", "."), ("conv/b.wav", ".")]

/-- A conversion-phase state in which the target of `sub/a.mp3` already
exists (as after one successful conversion). -/
def convStExisting : ConvState := ⟨["conv/sub/a.wav"], 1, 0, 0, 0, ["conv/sub/a.wav"], [("conv/sub/a.wav", "sub/a.mp3")]⟩

end WhisperScript

deriving instance DecidableEq for Except

namespace WhisperScript

/-! # Theorems -/

/-! ## Generic helper lemmas -/

theorem countP_add_countP_not {α : Type} (p : α → Bool) (l : List α) :
    l.countP p + l.countP (fun a => !p a) = l.length := by
  induction l with
  | nil => simp
  | cons a t ih => by_cases h : p a <;> simp [List.countP_cons, h] <;> omega

/-! ## C3: the path sanitizer (code evaluated at the claimed inputs)

`sanitize("")` and `sanitize("...")` behave as the spec says, but the
whitespace substitution does not: the source pattern `r"\\s+"` matches a
literal backslash followed by `s`, not whitespace, so the space in
`"a b/c"` is never turned into an underscore — it is stripped by the
character filter, giving `"abc"` instead of the documented `"a_bc"`.
This contradicts the source's own comment ("Replace whitespace with
underscores"), so the code, not the spec, is at fault. -/

/-- Claim C3.  The sanitizer maps `""` to `"unnamed_configuration"` and
`"..."` to `"sanitized_empty_name"` as claimed, but maps `"a b/c"` to
`"abc"`, not `"a_bc"`: whitespace is stripped, not collapsed to an
underscore, because the regex pattern `r"\\s+"` matches a literal
backslash followed by `s` rather than whitespace. -/
theorem sanitize_foldername_spec_inputs :
    sanitize_foldername "" = "unnamed_configuration" ∧
    sanitize_foldername "..." = "sanitized_empty_name" ∧
    sanitize_foldername "a b/c" = "abc" ∧
    sanitize_foldername "a b/c" ≠ "a_bc" ∧
    sanitize_foldername "a\\sb" = "a_b" := by
  refine ⟨by decide, by decide, by decide, by decide, by decide⟩

/-! ## C6: deterministic output directory and log-file naming -/

/-- Claim C6.  For the configuration
`{"description":"swedish_large_v2","model":"large-v2","language":"swedish"}`
applied to `sub/b.wav` with output base `/out` on 2025-06-10, the
resolved output directory is `/out/2025-06-10/swedish_large_v2/sub` and
the provenance log `b__swedish_large_v2.log.json` is placed in that same
directory; for a file at the scan root (relative subdirectory `"."`) the
last path segment is omitted. -/
theorem output_naming_scenario :
    (transcribeConfig demoCfg "conv/sub/b.wav" "/out" "sub" "sub/b.wav"
        false ⟨2025, 6, 10⟩ true true).finalDir
      = "/out/2025-06-10/swedish_large_v2/sub" ∧
    (transcribeConfig demoCfg "conv/sub/b.wav" "/out" "sub" "sub/b.wav"
        false ⟨2025, 6, 10⟩ true true).logPath
      = "/out/2025-06-10/swedish_large_v2/sub/b__swedish_large_v2.log.json" ∧
    (transcribeConfig demoCfg "conv/a.wav" "/out" "." "a.wav"
        false ⟨2025, 6, 10⟩ true true).finalDir
      = "/out/2025-06-10/swedish_large_v2" := by
  refine ⟨by decide, by decide, by decide⟩

/-! ## C10: the source-to-target mapping is not injective -/

/-- Claim C10.  `sub/a.mp3` and `sub/a.mp4` are distinct sources with the same
conversion target `conv/sub/a.wav`; processing them in one batch
converts the first, then skips the second as already existing, and the
provenance map retains only the relative path of the last one. -/
theorem target_mapping_not_injective :
    targetWavPath "conv" "sub/a.mp3" = "conv/sub/a.wav" ∧
    targetWavPath "conv" "sub/a.mp4" = "conv/sub/a.wav" ∧
    ("sub/a.mp3" : String) ≠ "sub/a.mp4" ∧
    (convStep false false (fun _ => true) (fun _ => true) "conv"
        (convStep false false (fun _ => true) (fun _ => true) "conv"
          convSt0 "sub/a.mp3").1 "sub/a.mp4").2 = [] ∧
    (convStep false false (fun _ => true) (fun _ => true) "conv"
        (convStep false false (fun _ => true) (fun _ => true) "conv"
          convSt0 "sub/a.mp3").1 "sub/a.mp4").1.skippedExists = 1 ∧
    dictGet (convStep false false (fun _ => true) (fun _ => true) "conv"
        (convStep false false (fun _ => true) (fun _ => true) "conv"
          convSt0 "sub/a.mp3").1 "sub/a.mp4").1.provMap "conv/sub/a.wav"
      = some "sub/a.mp4" := by
  refine ⟨by decide, by decide, by decide, by decide, by decide, by decide⟩

/-! ## C4: when the provenance log is written

The source writes the config log (configuration.py, 190-202) *before*
constructing the transcriber and invoking the service (lines 206-223),
so a failed service call leaves the log file in place — contradicting
the claim that the log is written only upon success. -/

/-- Claim C4, counterexample.  A task whose remote service call fails
(validation passed, `svcOk = false`) still has its provenance log
written: the events are exactly the log write followed by the service
call, and the result is the service error. -/
theorem provenance_log_written_despite_service_failure :
    (transcribeConfig demoCfg "conv/sub/b.wav" "/out" "sub" "sub/b.wav"
        false ⟨2025, 6, 10⟩ true false).result
      = Except.error "TranscriptionServiceFailure" ∧
    (transcribeConfig demoCfg "conv/sub/b.wav" "/out" "sub" "sub/b.wav"
        false ⟨2025, 6, 10⟩ true false).events
      = [TEvent.logWrite
          "/out/2025-06-10/swedish_large_v2/sub/b__swedish_large_v2.log.json",
         TEvent.serviceCall] := by
  refine ⟨by decide, by decide⟩

/-- Claim C4, amended.  For every task with configuration logging
enabled, the provenance log is written exactly once, *before* the
transcription-service invocation (it is the first event), and the
written events do not depend on the service outcome — so the log exists
even when the service call fails.  With logging disabled no log is
written. -/
theorem config_log_written_once_before_service (cfg : ConfigDict)
    (fn base sub orig : String) (now : Date) (fe sv sv2 : Bool) :
    (transcribeConfig cfg fn base sub orig false now fe sv).events.head?
      = some (TEvent.logWrite
          (transcribeConfig cfg fn base sub orig false now fe sv).logPath) ∧
    (transcribeConfig cfg fn base sub orig false now fe sv).events.countP isLogWrite
      = 1 ∧
    (transcribeConfig cfg fn base sub orig false now fe sv2).events
      = (transcribeConfig cfg fn base sub orig false now fe sv).events ∧
    (transcribeConfig cfg fn base sub orig true now fe sv).events.countP isLogWrite
      = 0 := by
  cases h : configTaskValid cfg fn fe <;>
    simp [transcribeConfig, h, isLogWrite, List.countP_cons, List.countP_nil]

/-! ## C5: the run date is read per task, not per invocation

`Configuration.transcribe` reads `datetime.datetime.now()` every time it
is called (configuration.py, 164), i.e. once per task.  A batch whose
tasks straddle a midnight boundary therefore lands in *different* date
folders, contradicting the claim. -/

/-- Claim C5, counterexample.  One configuration, two files, a clock
that crosses midnight between the two tasks of the same batch: the two
resolved output directories carry different date segments. -/
theorem run_date_differs_across_midnight :
    batchDirs [demoCfg] demoWavs "out" midnightClock
      = ["out/2025-06-10/swedish_large_v2",
         "out/2025-06-11/swedish_large_v2"] ∧
    (batchDirParts [demoCfg] demoWavs "out" midnightClock).map
        (fun ps => ps[1]?)
      = [some "2025-06-10", some "2025-06-11"] ∧
    ("2025-06-10" : String) ≠ "2025-06-11" := by
  refine ⟨by decide, by decide, by decide⟩

/-- Helper for C5: the date segment (component 1) of a task's resolved
output directory is the formatted clock value at that task's index. -/
theorem batchDirParts_date_segment (configs : List ConfigDict)
    (wavs : List (String × String)) (base : String) (clock : Nat → Date)
    (i : Nat) (ps : List String)
    (h : (batchDirParts configs wavs base clock)[i]? = some ps) :
    ps[1]? = some (formatDate (clock i)) := by
  unfold batchDirParts at h
  rw [List.getElem?_map, List.getElem?_enum] at h
  cases ht : (configs.flatMap fun c => wavs.map fun w => (c, w))[i]? with
  | none => rw [ht] at h; simp at h
  | some t =>
    rw [ht] at h
    simp only [Option.map_some'] at h
    cases h
    simp [resolveOutputParts]

/-- Claim C5, amended.  The run date used in the output path is computed
per task, at the moment that task's `transcribe` call starts: the date
segment of the `i`-th task's resolved output directory is the formatted
clock value at index `i`.  Consequently all tasks of a batch share one
date folder only when the formatted clock value never changes during the
batch (no midnight crossing). -/
theorem run_date_computed_per_task (configs : List ConfigDict)
    (wavs : List (String × String)) (base : String) (clock : Nat → Date) :
    (∀ i ps, (batchDirParts configs wavs base clock)[i]? = some ps →
       ps[1]? = some (formatDate (clock i))) ∧
    ((∀ i j : Nat, formatDate (clock i) = formatDate (clock j)) →
      ∀ (i j : Nat) (psi psj : List String),
        (batchDirParts configs wavs base clock)[i]? = some psi →
        (batchDirParts configs wavs base clock)[j]? = some psj →
        psi[1]? = psj[1]?) := by
  refine ⟨fun i ps h => batchDirParts_date_segment configs wavs base clock i ps h,
          fun hc i j psi psj hi hj => ?_⟩
  rw [batchDirParts_date_segment configs wavs base clock i psi hi,
    batchDirParts_date_segment configs wavs base clock j psj hj, hc i j]

/-- Witness for the amended C5: the first task of a concrete batch under
a constant clock has date segment `2025-06-10`. -/
theorem run_date_computed_per_task_witness :
    (batchDirParts [demoCfg] demoWavs "out" constClock)[0]?
      = some ["out", "2025-06-10", "swedish_large_v2"] ∧
    (["out", "2025-06-10", "swedish_large_v2"] : List String)[1]?
      = some (formatDate (constClock 0)) :=
  ⟨by decide,
   (run_date_computed_per_task [demoCfg] demoWavs "out" constClock).1 0
     ["out", "2025-06-10", "swedish_large_v2"] (by decide)⟩

/-! ## C2: matrix completeness of the transcription loop -/

theorem countP_not_add_countP {α : Type} (p : α → Bool) (l : List α) :
    l.countP (fun a => !p a) + l.countP p = l.length := by
  induction l with
  | nil => simp
  | cons a t ih => by_cases h : p a <;> simp [List.countP_cons, h] <;> omega

/-- The inner loop over WAV files: counts successes and failures of the
per-task outcome and appends every task to the trace. -/
theorem runInner_false_spec (outcome : ConfigDict → String → Except String Unit)
    (cfg : ConfigDict) :
    ∀ (ws : List String) (sub err : Nat) (tr : List (ConfigDict × String)),
    runInner false outcome cfg ws (sub, err, tr) =
      (sub + ws.countP (fun w => !exceptErr (outcome cfg w)),
       err + ws.countP (fun w => exceptErr (outcome cfg w)),
       tr ++ ws.map (fun w => (cfg, w))) := by
  intro ws
  induction ws with
  | nil => intro sub err tr; simp [runInner]
  | cons w ws ih =>
    intro sub err tr
    cases h : outcome cfg w with
    | ok u =>
      rw [runInner]
      simp only [Bool.false_eq_true, if_false, h]
      rw [ih]
      simp [List.countP_cons, exceptErr, h, Prod.ext_iff]
      omega
    | error e =>
      rw [runInner]
      simp only [Bool.false_eq_true, if_false, h]
      rw [ih]
      simp [List.countP_cons, exceptErr, h, Prod.ext_iff]
      omega

/-- The outer loop over configurations, in terms of the task list. -/
theorem runConfigs_false_spec (outcome : ConfigDict → String → Except String Unit)
    (wavs : List String) :
    ∀ (cs : List ConfigDict) (sub err : Nat) (tr : List (ConfigDict × String)),
    runConfigs false outcome wavs cs (sub, err, tr) =
      (sub + (taskList cs wavs).countP (fun t => !exceptErr (outcome t.1 t.2)),
       err + (taskList cs wavs).countP (fun t => exceptErr (outcome t.1 t.2)),
       tr ++ taskList cs wavs) := by
  intro cs
  induction cs with
  | nil => intro sub err tr; simp [runConfigs, taskList]
  | cons c cs ih =>
    intro sub err tr
    rw [runConfigs, runInner_false_spec, ih]
    simp [taskList, List.countP_append, List.countP_map, Prod.ext_iff,
      Function.comp_def]
    omega

theorem taskList_length (configs : List ConfigDict) (wavs : List String) :
    (taskList configs wavs).length = configs.length * wavs.length := by
  induction configs with
  | nil => simp [taskList]
  | cons c cs ih =>
    have h1 : taskList (c :: cs) wavs
        = wavs.map (fun w => (c, w)) ++ taskList cs wavs := by
      simp [taskList]
    rw [h1, List.length_append, List.length_map, ih, List.length_cons,
      Nat.succ_mul, Nat.add_comm]

/-- Claim C2.  With dry-run disabled, the orchestrator attempts exactly
`M × N` tasks — configurations in document order, files in discovery
order (the attempted-task trace is exactly `taskList`) — and the final
counters satisfy `submitted + errors = M × N`. -/
theorem transcription_matrix_complete
    (outcome : ConfigDict → String → Except String Unit)
    (configs : List ConfigDict) (wavs : List String) :
    (runMatrix false outcome configs wavs).2.2 = taskList configs wavs ∧
    (runMatrix false outcome configs wavs).2.2.length
      = configs.length * wavs.length ∧
    (runMatrix false outcome configs wavs).1
        + (runMatrix false outcome configs wavs).2.1
      = configs.length * wavs.length := by
  unfold runMatrix
  rw [runConfigs_false_spec]
  simp [taskList_length]
  rw [← taskList_length configs wavs]
  exact countP_not_add_countP (fun t => exceptErr (outcome t.1 t.2))
      (taskList configs wavs)

/-! ## C7: unrecognized setting keys fail loudly and are isolated -/

/-- Claim C7.  A configuration holding a setting key outside the fixed
registry (with a well-formed model and an existing input file) makes
every one of its tasks fail with an error naming an offending key
(`"Invalid setting: <key>"` is raised at the first unrecognized key of
the kwargs, transcriber.py 171-178); the orchestrator still attempts
every task of the batch, and the error counter counts exactly the
failing tasks — one increment per failing task. -/
theorem invalid_setting_fails_loudly_and_isolated
    (fe : String → Bool) (svc : ConfigDict → String → Bool)
    (pre post : List ConfigDict) (cfgBad : ConfigDict) (wavs : List String)
    (m : String)
    (hfe : ∀ w ∈ wavs, fe w = true)
    (hm : configModel cfgBad = some m)
    (hmv : modelValues.contains (strToLower m) = true)
    (hbad : ∃ kv ∈ configKwargs cfgBad, settingKeys.contains kv.1 = false) :
    (runMatrix false (orchestratorOutcome fe svc) (pre ++ cfgBad :: post) wavs).2.2
      = taskList (pre ++ cfgBad :: post) wavs ∧
    (runMatrix false (orchestratorOutcome fe svc) (pre ++ cfgBad :: post) wavs).2.1
      = (taskList (pre ++ cfgBad :: post) wavs).countP
          (fun t => exceptErr (orchestratorOutcome fe svc t.1 t.2)) ∧
    ∀ w ∈ wavs, ∃ kv, kv ∈ configKwargs cfgBad ∧
      settingKeys.contains kv.1 = false ∧
      orchestratorOutcome fe svc cfgBad w
        = .error ("Invalid setting: " ++ kv.1) := by
  refine ⟨?_, ?_, ?_⟩
  · unfold runMatrix; rw [runConfigs_false_spec]; simp
  · unfold runMatrix; rw [runConfigs_false_spec]; simp
  · intro w hw
    have hsome : ((configKwargs cfgBad).find?
        (fun kv => !settingKeys.contains kv.1)).isSome := by
      rw [List.find?_isSome]
      obtain ⟨kv, hkv, hc⟩ := hbad
      exact ⟨kv, hkv, by simp only [hc, Bool.not_false]⟩
    cases hfind : (configKwargs cfgBad).find?
        (fun kv => !settingKeys.contains kv.1) with
    | none => rw [hfind] at hsome; simp at hsome
    | some kv0 =>
      refine ⟨kv0, List.mem_of_find?_eq_some hfind, ?_, ?_⟩
      · have h2 := List.find?_some hfind
        simp only [Bool.not_eq_true'] at h2
        exact h2
      · unfold orchestratorOutcome configTaskResult configTaskValid
          transcriberValidate
        rw [hfe w hw]
        simp only [hm, hmv, hfind]
        simp

/-- Witness for C7: the concrete `bogus_param` scenario — the batch
`[demoCfg, bogusCfg]` over one file attempts both tasks and the bogus
configuration's task fails naming `bogus_param`. -/
theorem invalid_setting_fails_loudly_and_isolated_witness :
    settingKeys.contains "bogus_param" = false ∧
    ((runMatrix false (orchestratorOutcome (fun _ => true) (fun _ _ => true))
        ([demoCfg] ++ bogusCfg :: []) ["conv/a.wav"]).2.2
      = taskList ([demoCfg] ++ bogusCfg :: []) ["conv/a.wav"] ∧
    (runMatrix false (orchestratorOutcome (fun _ => true) (fun _ _ => true))
        ([demoCfg] ++ bogusCfg :: []) ["conv/a.wav"]).2.1
      = (taskList ([demoCfg] ++ bogusCfg :: []) ["conv/a.wav"]).countP
          (fun t => exceptErr
            (orchestratorOutcome (fun _ => true) (fun _ _ => true) t.1 t.2)) ∧
    ∀ w ∈ ["conv/a.wav"], ∃ kv, kv ∈ configKwargs bogusCfg ∧
      settingKeys.contains kv.1 = false ∧
      orchestratorOutcome (fun _ => true) (fun _ _ => true) bogusCfg w
        = .error ("Invalid setting: " ++ kv.1)) :=
  ⟨by decide,
   invalid_setting_fails_loudly_and_isolated (fun _ => true) (fun _ _ => true)
     [demoCfg] [] bogusCfg ["conv/a.wav"] "large-v2"
     (by decide) (by decide) (by decide) (by decide)⟩

/-! ## C1: the conversion cache skips existing targets and is idempotent -/

/-- Helper for C1: when the target exists and forcing is off, a
conversion step only updates the provenance map, bumps the skipped
counter and records the target for transcription — no external action. -/
theorem convStep_skip (dryRun : Bool) (ffmpegOk copyOk : String → Bool)
    (convRoot rel : String) (st : ConvState)
    (hT : targetWavPath convRoot rel ∈ st.fs) :
    convStep false dryRun ffmpegOk copyOk convRoot st rel =
      ({ st with
          provMap := dictSet st.provMap (targetWavPath convRoot rel) rel,
          skippedExists := st.skippedExists + 1,
          wavFiles := st.wavFiles ++ [targetWavPath convRoot rel] }, []) := by
  unfold convStep
  by_cases hs : strToLower (suffixOf rel) = ".wav" <;> simp [hs, hT]

/-- Helper for C1: iterating the step any number of times from a state
whose target exists performs no external action and only accumulates
skips. -/
theorem convIter_skip (dryRun : Bool) (ffmpegOk copyOk : String → Bool)
    (convRoot rel : String) :
    ∀ (n : Nat) (st : ConvState), targetWavPath convRoot rel ∈ st.fs →
    (convIter false dryRun ffmpegOk copyOk convRoot st rel n).2 = [] ∧
    (convIter false dryRun ffmpegOk copyOk convRoot st rel n).1.fs = st.fs ∧
    (convIter false dryRun ffmpegOk copyOk convRoot st rel n).1.skippedExists
      = st.skippedExists + n ∧
    (convIter false dryRun ffmpegOk copyOk convRoot st rel n).1.filesConverted
      = st.filesConverted ∧
    (convIter false dryRun ffmpegOk copyOk convRoot st rel n).1.filesCopied
      = st.filesCopied ∧
    (convIter false dryRun ffmpegOk copyOk convRoot st rel n).1.convFailed
      = st.convFailed := by
  intro n
  induction n with
  | zero => intro st hT; simp [convIter]
  | succ n ih =>
    intro st hT
    have h1 := convStep_skip dryRun ffmpegOk copyOk convRoot rel st hT
    have h2 := ih ({ st with
        provMap := dictSet st.provMap (targetWavPath convRoot rel) rel,
        skippedExists := st.skippedExists + 1,
        wavFiles := st.wavFiles ++ [targetWavPath convRoot rel] }) hT
    rw [convIter, h1]
    refine ⟨by simp [h2.1], by simp [h2.2.1], ?_, by simp [h2.2.2.2.1],
      by simp [h2.2.2.2.2.1], by simp [h2.2.2.2.2.2]⟩
    have h3 := h2.2.2.1
    simp at h3
    simp [h3]
    omega

/-- Claim C1.  If the target of a source file already exists and
force-reconvert is disabled, the conversion step performs no transcoding
or copying (no external action), increments only the skipped counter
(all other counters and the filesystem are unchanged), and — since the
skip branch never changes the filesystem — any number of further
invocations on the same pair behaves the same way, each adding exactly
one skip. -/
theorem conversion_cache_skip_idempotent (force dryRun : Bool)
    (ffmpegOk copyOk : String → Bool) (convRoot rel : String) (st : ConvState)
    (hT : targetWavPath convRoot rel ∈ st.fs) (hF : force = false) :
    (convStep force dryRun ffmpegOk copyOk convRoot st rel).2 = [] ∧
    (convStep force dryRun ffmpegOk copyOk convRoot st rel).1.fs = st.fs ∧
    (convStep force dryRun ffmpegOk copyOk convRoot st rel).1.skippedExists
      = st.skippedExists + 1 ∧
    (convStep force dryRun ffmpegOk copyOk convRoot st rel).1.filesConverted
      = st.filesConverted ∧
    (convStep force dryRun ffmpegOk copyOk convRoot st rel).1.filesCopied
      = st.filesCopied ∧
    (convStep force dryRun ffmpegOk copyOk convRoot st rel).1.convFailed
      = st.convFailed ∧
    ∀ n : Nat,
      (convIter force dryRun ffmpegOk copyOk convRoot st rel n).2 = [] ∧
      (convIter force dryRun ffmpegOk copyOk convRoot st rel n).1.fs = st.fs ∧
      (convIter force dryRun ffmpegOk copyOk convRoot st rel n).1.skippedExists
        = st.skippedExists + n ∧
      (convIter force dryRun ffmpegOk copyOk convRoot st rel n).1.filesConverted
        = st.filesConverted ∧
      (convIter force dryRun ffmpegOk copyOk convRoot st rel n).1.filesCopied
        = st.filesCopied ∧
      (convIter force dryRun ffmpegOk copyOk convRoot st rel n).1.convFailed
        = st.convFailed := by
  subst hF
  have h1 := convStep_skip dryRun ffmpegOk copyOk convRoot rel st hT
  rw [h1]
  refine ⟨rfl, rfl, rfl, rfl, rfl, rfl, ?_⟩
  intro n
  exact convIter_skip dryRun ffmpegOk copyOk convRoot rel n st hT

/-- Witness for C1: a state in which `conv/sub/a.wav` already exists;
three further invocations on `sub/a.mp3` perform no action and add three
skips. -/
theorem conversion_cache_skip_idempotent_witness :
    targetWavPath "conv" "sub/a.mp3" ∈ convStExisting.fs ∧
    (convIter false false (fun _ => true) (fun _ => true) "conv"
        convStExisting "sub/a.mp3" 3).2 = [] ∧
    (convIter false false (fun _ => true) (fun _ => true) "conv"
        convStExisting "sub/a.mp3" 3).1.skippedExists
      = convStExisting.skippedExists + 3 :=
  ⟨by decide,
   ((conversion_cache_skip_idempotent false false (fun _ => true)
       (fun _ => true) "conv" "sub/a.mp3" convStExisting (by decide)
       rfl).2.2.2.2.2.2 3).1,
   (((conversion_cache_skip_idempotent false false (fun _ => true)
       (fun _ => true) "conv" "sub/a.mp3" convStExisting (by decide)
       rfl).2.2.2.2.2.2 3).2.2).1⟩

/-! ## C8: a failed conversion leaves no partial target behind -/

/-- Claim C8.  When ffmpeg exits with a non-zero code and the source
exists, `convert_audio_to_wav_file` fails, the transcoder's error-stream
diagnostics are attached, and the target file does not exist afterwards
(any partially-written target was unlinked). -/
theorem failed_conversion_leaves_no_target (rc : Nat) (stderr : String)
    (wrotePartial : Bool) (fs : List String) (tgt : String) (hrc : rc ≠ 0) :
    (convert_audio_to_wav_file true rc stderr wrotePartial fs tgt).1 = false ∧
    (convert_audio_to_wav_file true rc stderr wrotePartial fs tgt).2.1
      = some stderr ∧
    tgt ∉ (convert_audio_to_wav_file true rc stderr wrotePartial fs tgt).2.2 := by
  refine ⟨by simp [convert_audio_to_wav_file, hrc],
    by simp [convert_audio_to_wav_file, hrc], ?_⟩
  simp [convert_audio_to_wav_file, hrc, List.mem_filter]

/-- Witness for C8: a run in which ffmpeg wrote a partial target and
exited with code 1. -/
theorem failed_conversion_leaves_no_target_witness :
    (1 : Nat) ≠ 0 ∧
    ((convert_audio_to_wav_file true 1 "boom" true ["x"] "t.wav").1 = false ∧
     (convert_audio_to_wav_file true 1 "boom" true ["x"] "t.wav").2.1
       = some "boom" ∧
     "t.wav" ∉ (convert_audio_to_wav_file true 1 "boom" true ["x"] "t.wav").2.2) :=
  ⟨by decide, failed_conversion_leaves_no_target 1 "boom" true ["x"] "t.wav"
    (by decide)⟩

/-! ## C9: discovery of a single file, and empty results -/

/-- Claim C9.  `find_files_to_convert` on a single file whose extension
matches the filter returns exactly that file (with its output path); a
non-matching single file, a directory none of whose entries match, and a
missing path all yield the empty list rather than an error. -/
theorem discovery_single_file_and_empty (p outDir root : String)
    (exts : List String) (cs : Bool) (entries : List String) :
    (extMatch cs exts p = true →
      find_files_to_convert (.file p) exts outDir cs
        = [(p, osJoin2 outDir (stemOf p ++ ".wav"))]) ∧
    (extMatch cs exts p = false →
      find_files_to_convert (.file p) exts outDir cs = []) ∧
    ((∀ e ∈ entries, extMatch cs exts e = false) →
      find_files_to_convert (.dir root entries) exts outDir cs = []) ∧
    find_files_to_convert .missing exts outDir cs = [] := by
  refine ⟨fun h => by simp [find_files_to_convert, h],
    fun h => by simp [find_files_to_convert, h], fun h => ?_, rfl⟩
  unfold find_files_to_convert
  rw [List.filterMap_eq_nil_iff]
  intro a ha
  have hmem : a ∈ entries := (List.mem_filter.mp ha).1
  simp [h a hmem]

/-- Witness for C9: a matching single file and a directory with no
matching entry. -/
theorem discovery_single_file_and_empty_witness :
    extMatch false [".mp3"] "/in/a.mp3" = true ∧
    find_files_to_convert (.file "/in/a.mp3") [".mp3"] "/o" false
      = [("/in/a.mp3", "/o/a.wav")] ∧
    find_files_to_convert (.dir "/in" ["x.txt"]) [".mp3"] "/o" false = [] :=
  ⟨by decide,
   (discovery_single_file_and_empty "/in/a.mp3" "/o" "/in" [".mp3"] false
     ["x.txt"]).1 (by decide),
   (discovery_single_file_and_empty "/in/a.mp3" "/o" "/in" [".mp3"] false
     ["x.txt"]).2.2.1 (by decide)⟩

end WhisperScript
